import Mathlib

/-!
Shallow embedding of the EscrowV1 contract (src/unnamed/part_000, Solidity 0.8).

Modelling conventions:
* `Address` and `InvoiceId` are `Nat`; `0` stands for `address(0)` and
  `bytes32(0)` respectively.
* `uint256` / `uint64` quantities are `Nat`; where the source performs checked
  uint64 arithmetic that can revert with a Panic(0x11) overflow, the model
  returns the distinguished outcome `none` / `Err.PANIC_OVERFLOW` when the sum
  reaches `2^64`.  `uint64(block.timestamp)` truncation is modelled by `% 2^64`.
* Each external function becomes a function of the pre-state plus its
  arguments plus the ambient `block.timestamp` (`now`) and `msg.sender`
  (`caller`), returning `Except Err ...`.  An `Except.error` models a revert:
  the EVM discards every storage write of the transaction, so no state is
  carried by the error — this captures the all-or-nothing transaction
  semantics of the source.
* Solidity function modifiers run before the body, so `notPaused` / `onlyOwner`
  are the first checks of each function that carries them.
* The ERC-20 collaborator is modelled by a boolean argument `pullInOk` on
  `openEscrow` telling whether `usdc.safeTransferFrom` succeeds.  In the source
  the storage writes precede the transfer call; on transfer failure the revert
  rolls them back, which the `Except` model reflects by returning an error.
* `releaseToFreelancer` returns, on success, the storage state as committed at
  the moment `usdc.safeTransfer` is invoked (status already `Released`, amount
  already zeroed) together with the transfer's recipient and amount; the
  source makes no further storage write after the transfer, so this is also
  the post-state of the call.
-/

abbrev Address := Nat

abbrev InvoiceId := Nat

/-- The `Status` enum of the contract. -/
inductive Status where
  | None
  | Funded
  | Delivered
  | Disputed
  | Released
  | Refunded
deriving DecidableEq, Repr

/-- The `Escrow` struct of the contract. -/
structure Escrow where
  client : Address
  freelancer : Address
  amount : Nat
  dueAt : Nat
  deliveredAt : Nat
  status : Status
deriving DecidableEq, Repr

/-- Revert reasons of the contract.  The names follow the revert strings of the
source; `PANIC_OVERFLOW` is the Solidity 0.8 checked-arithmetic Panic(0x11),
and `TRANSFER_FAILED` stands for a revert surfaced from `SafeERC20`. -/
inductive Err where
  | NOT_OWNER
  | PAUSED
  | BAD_ID
  | EXISTS
  | BAD_FREELANCER
  | BAD_AMT
  | BAD_DUE
  | NOT_FUNDED
  | ONLY_FREELANCER
  | ALREADY_SETTLED
  | NOT_ELIGIBLE
  | INVALID_INVOICE
  | SMALL
  | PANIC_OVERFLOW
  | TRANSFER_FAILED
deriving DecidableEq, Repr

/-- The contract's storage.  Solidity mappings (default-valued total maps)
become total functions. -/
structure ContractState where
  owner : Address
  paused : Bool
  disputeWindow : Nat
  userEscrows : Address → List InvoiceId
  escrowExists : InvoiceId → Bool
  escrows : InvoiceId → Escrow

/-- The default (never-written) mapping value of `escrows`. -/
def emptyEscrow : Escrow :=
  { client := 0, freelancer := 0, amount := 0, dueAt := 0, deliveredAt := 0,
    status := Status.None }

/-- Storage right after the constructor ran with `msg.sender = deployer`:
`owner = deployer`, `paused = false`, `disputeWindow = 5 days = 432000 s`,
all mappings at their default values. -/
def initialState (deployer : Address) : ContractState :=
  { owner := deployer, paused := false, disputeWindow := 432000,
    userEscrows := fun _ => [], escrowExists := fun _ => false,
    escrows := fun _ => emptyEscrow }

/-- Pointwise update of a mapping, as a Solidity storage write. -/
def mapWrite {α : Type} (m : InvoiceId → α) (k : InvoiceId) (v : α) :
    InvoiceId → α :=
  fun j => if j = k then v else m j

/-- `userEscrows[a].push(id)`. -/
def pushUser (m : Address → List InvoiceId) (a : Address) (id : InvoiceId) :
    Address → List InvoiceId :=
  fun b => if b = a then m b ++ [id] else m b

/-- `openEscrow` (source lines 109-138).  Checks, in execution order: the
`notPaused` modifier, then the five `require`s of the body; then writes the
record, the existence flag and both index pushes, then calls
`safeTransferFrom` whose failure (`pullInOk = false`) reverts the whole
transaction. -/
def openEscrow (s : ContractState) (id : InvoiceId) (freelancer : Address)
    (amount dueAt : Nat) (now : Nat) (caller : Address) (pullInOk : Bool) :
    Except Err ContractState :=
  if s.paused then Except.error Err.PAUSED
  else if id = 0 then Except.error Err.BAD_ID
  else if (s.escrows id).status ≠ Status.None then Except.error Err.EXISTS
  else if freelancer = 0 then Except.error Err.BAD_FREELANCER
  else if amount = 0 then Except.error Err.BAD_AMT
  else if dueAt ≤ now then Except.error Err.BAD_DUE
  else if pullInOk = false then Except.error Err.TRANSFER_FAILED
  else
    Except.ok
      { s with
        escrows := mapWrite s.escrows id
          { client := caller, freelancer := freelancer, amount := amount,
            dueAt := dueAt, deliveredAt := 0, status := Status.Funded },
        escrowExists := mapWrite s.escrowExists id true,
        userEscrows := pushUser (pushUser s.userEscrows caller id) freelancer id }

/-- `getEscrowsByAddress` (source lines 140-144). -/
def getEscrowsByAddress (s : ContractState) (user : Address) : List InvoiceId :=
  s.userEscrows user

/-- `getEscrowsDetails` (source lines 146-177): one `require(escrowExists ...)`
per element, in input order; on success six field sequences aligned with the
input. -/
def getEscrowsDetails (s : ContractState) :
    List InvoiceId →
    Except Err (List Address × List Address × List Nat × List Nat × List Nat ×
      List Status)
  | [] => Except.ok ([], [], [], [], [], [])
  | id :: rest =>
    if s.escrowExists id then
      match getEscrowsDetails s rest with
      | Except.error e => Except.error e
      | Except.ok (cs, fs, as_, ds, vs, sts) =>
        let e := s.escrows id
        Except.ok (e.client :: cs, e.freelancer :: fs, e.amount :: as_,
          e.dueAt :: ds, e.deliveredAt :: vs, e.status :: sts)
    else Except.error Err.INVALID_INVOICE

/-- `markDelivered` (source lines 180-188).  The source's storage reference
`e = escrows[_invoiceId]` is written out as `s.escrows id`. -/
def markDelivered (s : ContractState) (id : InvoiceId) (now : Nat)
    (caller : Address) : Except Err ContractState :=
  if s.paused then Except.error Err.PAUSED
  else if (s.escrows id).status ≠ Status.Funded then Except.error Err.NOT_FUNDED
  else if caller ≠ (s.escrows id).freelancer then
    Except.error Err.ONLY_FREELANCER
  else
    Except.ok
      { s with
        escrows := mapWrite s.escrows id
          { s.escrows id with
            deliveredAt := now % 2 ^ 64, status := Status.Delivered } }

/-- `_isReleaseEligible` (source lines 213-226).  `e.deliveredAt + disputeWindow`
is a checked uint64 addition: when the mathematical sum reaches `2^64` the
call reverts with Panic(0x11), modelled by `none`.  The Solidity `&&`
short-circuits, so the addition is not evaluated when `deliveredAt == 0`. -/
def isReleaseEligible (disputeWindow : Nat) (e : Escrow) (now : Nat) :
    Option Bool :=
  if e.dueAt ≤ now then some true
  else if e.deliveredAt ≠ 0 then
    if e.deliveredAt + disputeWindow < 2 ^ 64 then
      some (e.deliveredAt + disputeWindow ≤ now)
    else none
  else some false

/-- `releaseToFreelancer` (source lines 191-210).  On success returns the
storage as committed strictly before `usdc.safeTransfer` (status `Released`,
stored amount zeroed) together with the recipient and the captured amount. -/
def releaseToFreelancer (s : ContractState) (id : InvoiceId) (now : Nat) :
    Except Err (ContractState × Address × Nat) :=
  if s.paused then Except.error Err.PAUSED
  else if (s.escrows id).status = Status.Funded ∨
      (s.escrows id).status = Status.Delivered then
    match isReleaseEligible s.disputeWindow (s.escrows id) now with
    | none => Except.error Err.PANIC_OVERFLOW
    | some false => Except.error Err.NOT_ELIGIBLE
    | some true =>
      Except.ok
        ({ s with
            escrows := mapWrite s.escrows id
              { s.escrows id with status := Status.Released, amount := 0 } },
          (s.escrows id).freelancer, (s.escrows id).amount)
  else Except.error Err.ALREADY_SETTLED

/-- `setPaused` (source lines 97-99): `onlyOwner`, no pause gate. -/
def setPaused (s : ContractState) (caller : Address) (p : Bool) :
    Except Err ContractState :=
  if caller ≠ s.owner then Except.error Err.NOT_OWNER
  else Except.ok { s with paused := p }

/-- `setDisputeWindow` (source lines 101-104): `onlyOwner`, floor of
`1 days = 86400 s`, no pause gate. -/
def setDisputeWindow (s : ContractState) (caller : Address) (w : Nat) :
    Except Err ContractState :=
  if caller ≠ s.owner then Except.error Err.NOT_OWNER
  else if w < 86400 then Except.error Err.SMALL
  else Except.ok { s with disputeWindow := w }

/-! ## Transition system over the public mutating operations -/

/-- One successful public mutating call, any arguments, any caller, any
timestamp, any collaborator outcome. -/
inductive Step : ContractState → ContractState → Prop where
  | openE (s s' : ContractState) (id : InvoiceId) (f : Address)
      (amt due now : Nat) (caller : Address) (ok : Bool) :
      openEscrow s id f amt due now caller ok = Except.ok s' → Step s s'
  | deliver (s s' : ContractState) (id : InvoiceId) (now : Nat)
      (caller : Address) :
      markDelivered s id now caller = Except.ok s' → Step s s'
  | release (s s' : ContractState) (id : InvoiceId) (now : Nat) (f : Address)
      (amt : Nat) :
      releaseToFreelancer s id now = Except.ok (s', f, amt) → Step s s'
  | pauseSet (s s' : ContractState) (caller : Address) (p : Bool) :
      setPaused s caller p = Except.ok s' → Step s s'
  | windowSet (s s' : ContractState) (caller : Address) (w : Nat) :
      setDisputeWindow s caller w = Except.ok s' → Step s s'

/-- Zero or more successful public mutating calls. -/
inductive Steps : ContractState → ContractState → Prop where
  | refl (s : ContractState) : Steps s s
  | tail (s t u : ContractState) : Steps s t → Step t u → Steps s u

/-- States reachable from some freshly constructed contract. -/
inductive Reachable : ContractState → Prop where
  | init (deployer : Address) : Reachable (initialState deployer)
  | step (s s' : ContractState) : Reachable s → Step s s' → Reachable s'

/-! ## Inversion lemmas for successful calls -/


theorem openEscrow_ok_iff (s : ContractState) (id : InvoiceId) (f : Address)
    (amt due now : Nat) (caller : Address) (ok : Bool) (s' : ContractState) :
    openEscrow s id f amt due now caller ok = Except.ok s' ↔
      s.paused = false ∧ id ≠ 0 ∧ (s.escrows id).status = Status.None ∧
      f ≠ 0 ∧ amt ≠ 0 ∧ now < due ∧ ok = true ∧
      s' = { s with
        escrows := mapWrite s.escrows id
          { client := caller, freelancer := f, amount := amt, dueAt := due,
            deliveredAt := 0, status := Status.Funded },
        escrowExists := mapWrite s.escrowExists id true,
        userEscrows := pushUser (pushUser s.userEscrows caller id) f id } := by
  unfold openEscrow
  split_ifs with h1 h2 h3 h4 h5 h6 h7
  · exact ⟨fun h => h.elim, fun ⟨c1, _⟩ => absurd h1 (by simp [c1])⟩
  · exact ⟨fun h => h.elim, fun ⟨_, c2, _⟩ => absurd h2 c2⟩
  · exact ⟨fun h => h.elim, fun ⟨_, _, c3, _⟩ => absurd c3 h3⟩
  · exact ⟨fun h => h.elim, fun ⟨_, _, _, c4, _⟩ => absurd h4 c4⟩
  · exact ⟨fun h => h.elim, fun ⟨_, _, _, _, c5, _⟩ => absurd h5 c5⟩
  · exact ⟨fun h => h.elim, fun ⟨_, _, _, _, _, c6, _⟩ => absurd c6 (by omega)⟩
  · exact ⟨fun h => h.elim,
      fun ⟨_, _, _, _, _, _, c7, _⟩ => absurd h7 (by simp [c7])⟩
  · constructor
    · intro h
      injection h with h
      exact ⟨by simpa using h1, h2, by simpa using h3, h4, h5, by omega,
        by simpa using h7, h.symm⟩
    · rintro ⟨-, -, -, -, -, -, -, rfl⟩
      rfl

theorem markDelivered_ok_iff (s : ContractState) (id : InvoiceId) (now : Nat)
    (caller : Address) (s' : ContractState) :
    markDelivered s id now caller = Except.ok s' ↔
      s.paused = false ∧ (s.escrows id).status = Status.Funded ∧
      caller = (s.escrows id).freelancer ∧
      s' = { s with
        escrows := mapWrite s.escrows id
          { s.escrows id with
            deliveredAt := now % 2 ^ 64, status := Status.Delivered } } := by
  unfold markDelivered
  split_ifs with h1 h2 h3
  · exact ⟨fun h => h.elim, fun ⟨c1, _⟩ => absurd h1 (by simp [c1])⟩
  · exact ⟨fun h => h.elim, fun ⟨_, c2, _⟩ => absurd c2 h2⟩
  · exact ⟨fun h => h.elim, fun ⟨_, _, c3, _⟩ => absurd c3 h3⟩
  · constructor
    · intro h
      injection h with h
      exact ⟨by simpa using h1, by simpa using h2, by simpa using h3, h.symm⟩
    · rintro ⟨-, -, -, rfl⟩
      rfl

theorem releaseToFreelancer_ok_iff (s : ContractState) (id : InvoiceId)
    (now : Nat) (s' : ContractState) (f : Address) (amt : Nat) :
    releaseToFreelancer s id now = Except.ok (s', f, amt) ↔
      s.paused = false ∧
      ((s.escrows id).status = Status.Funded ∨
        (s.escrows id).status = Status.Delivered) ∧
      isReleaseEligible s.disputeWindow (s.escrows id) now = some true ∧
      f = (s.escrows id).freelancer ∧ amt = (s.escrows id).amount ∧
      s' = { s with
        escrows := mapWrite s.escrows id
          { s.escrows id with status := Status.Released, amount := 0 } } := by
  unfold releaseToFreelancer
  rcases hel : isReleaseEligible s.disputeWindow (s.escrows id) now with _ | b
  · split_ifs with h1 h2
    · exact ⟨fun h => h.elim, fun ⟨c1, _⟩ => absurd h1 (by simp [c1])⟩
    · exact ⟨fun h => h.elim, fun ⟨_, _, c3, _⟩ => c3.elim⟩
    · exact ⟨fun h => h.elim, fun ⟨_, c2, _⟩ => absurd c2 h2⟩
  · rcases b
    · split_ifs with h1 h2
      · exact ⟨fun h => h.elim, fun ⟨c1, _⟩ => absurd h1 (by simp [c1])⟩
      · exact ⟨fun h => h.elim,
          fun ⟨_, _, c3, _⟩ => Bool.noConfusion (Option.some.inj c3)⟩
      · exact ⟨fun h => h.elim, fun ⟨_, c2, _⟩ => absurd c2 h2⟩
    · split_ifs with h1 h2
      · exact ⟨fun h => h.elim, fun ⟨c1, _⟩ => absurd h1 (by simp [c1])⟩
      · constructor
        · intro h
          injection h with h
          injection h with hs hrest
          injection hrest with hf hamt
          exact ⟨by simpa using h1, h2, rfl, hf.symm, hamt.symm, hs.symm⟩
        · rintro ⟨-, -, -, rfl, rfl, rfl⟩
          rfl
      · exact ⟨fun h => h.elim, fun ⟨_, c2, _⟩ => absurd c2 h2⟩

theorem setPaused_ok_iff (s : ContractState) (caller : Address) (p : Bool)
    (s' : ContractState) :
    setPaused s caller p = Except.ok s' ↔
      caller = s.owner ∧ s' = { s with paused := p } := by
  unfold setPaused
  split_ifs with h1 <;> simp_all [eq_comm]

theorem setDisputeWindow_ok_iff (s : ContractState) (caller : Address)
    (w : Nat) (s' : ContractState) :
    setDisputeWindow s caller w = Except.ok s' ↔
      caller = s.owner ∧ 86400 ≤ w ∧ s' = { s with disputeWindow := w } := by
  unfold setDisputeWindow
  split_ifs with h1 h2
  · exact ⟨fun h => h.elim, fun ⟨c1, _⟩ => absurd c1 h1⟩
  · exact ⟨fun h => h.elim, fun ⟨_, c2, _⟩ => absurd c2 (by omega)⟩
  · constructor
    · intro h
      injection h with h
      exact ⟨by simpa using h1, by omega, h.symm⟩
    · rintro ⟨-, -, rfl⟩
      rfl

/-! ## Status lifecycle -/

/-- The status changes a single successful operation may make to one record:
stay put, or advance along None to Funded to (Delivered to) Released. -/
def allowedAdvance (a b : Status) : Prop :=
  a = b ∨ (a = Status.None ∧ b = Status.Funded) ∨
    (a = Status.Funded ∧ b = Status.Delivered) ∨
    (a = Status.Funded ∧ b = Status.Released) ∨
    (a = Status.Delivered ∧ b = Status.Released)

theorem step_status_advance {s s' : ContractState} (h : Step s s')
    (id : InvoiceId) :
    allowedAdvance (s.escrows id).status (s'.escrows id).status := by
  cases h with
  | openE id0 f amt due now caller ok h =>
    rw [openEscrow_ok_iff] at h
    obtain ⟨-, -, hnone, -, -, -, -, rfl⟩ := h
    by_cases hid : id = id0
    · subst hid
      right; left
      exact ⟨hnone, by simp [mapWrite]⟩
    · left
      simp [mapWrite, hid]
  | deliver id0 now caller h =>
    rw [markDelivered_ok_iff] at h
    obtain ⟨-, hfunded, -, rfl⟩ := h
    by_cases hid : id = id0
    · subst hid
      right; right; left
      exact ⟨hfunded, by simp [mapWrite]⟩
    · left
      simp [mapWrite, hid]
  | release id0 now f amt h =>
    rw [releaseToFreelancer_ok_iff] at h
    obtain ⟨-, hst, -, -, -, rfl⟩ := h
    by_cases hid : id = id0
    · subst hid
      rcases hst with hst | hst
      · right; right; right; left
        exact ⟨hst, by simp [mapWrite]⟩
      · right; right; right; right
        exact ⟨hst, by simp [mapWrite]⟩
    · left
      simp [mapWrite, hid]
  | pauseSet caller p h =>
    rw [setPaused_ok_iff] at h
    obtain ⟨-, rfl⟩ := h
    left; rfl
  | windowSet caller w h =>
    rw [setDisputeWindow_ok_iff] at h
    obtain ⟨-, -, rfl⟩ := h
    left; rfl

theorem allowedAdvance_not_new {a b : Status} (h : allowedAdvance a b)
    (ha : a ≠ Status.None) : b ≠ Status.None := by
  rcases h with rfl | ⟨rfl, rfl⟩ | ⟨rfl, rfl⟩ | ⟨rfl, rfl⟩ | ⟨rfl, rfl⟩ <;>
    simp_all

theorem allowedAdvance_not_reserved {a b : Status} (h : allowedAdvance a b)
    (ha : a ≠ Status.Disputed ∧ a ≠ Status.Refunded) :
    b ≠ Status.Disputed ∧ b ≠ Status.Refunded := by
  rcases h with rfl | ⟨rfl, rfl⟩ | ⟨rfl, rfl⟩ | ⟨rfl, rfl⟩ | ⟨rfl, rfl⟩ <;>
    simp_all

theorem reachable_not_reserved {s : ContractState} (h : Reachable s)
    (id : InvoiceId) :
    (s.escrows id).status ≠ Status.Disputed ∧
    (s.escrows id).status ≠ Status.Refunded := by
  induction h with
  | init deployer => simp [initialState, emptyEscrow]
  | step t u hr hstep ih =>
    exact allowedAdvance_not_reserved (step_status_advance hstep id) ih

theorem steps_status_stays_used {s s' : ContractState} (h : Steps s s')
    (id : InvoiceId) (hne : (s.escrows id).status ≠ Status.None) :
    (s'.escrows id).status ≠ Status.None := by
  induction h with
  | refl => exact hne
  | tail t u hst hstep ih =>
    exact allowedAdvance_not_new (step_status_advance hstep id) ih

/-! ## Concrete states used to instantiate the theorems -/

/-- Extract the committed state from an `openEscrow`-style result. -/
def okStateD (r : Except Err ContractState) (d : ContractState) :
    ContractState :=
  match r with
  | Except.ok t => t
  | Except.error _ => d

/-- Extract the committed state from a `releaseToFreelancer` result. -/
def okStateR (r : Except Err (ContractState × Address × Nat))
    (d : ContractState) : ContractState :=
  match r with
  | Except.ok (t, _, _) => t
  | Except.error _ => d

/-- Deployer 1; client 3 opened invoice 5 for freelancer 2, amount 100,
due at 100, at time 10. -/
def stA : ContractState :=
  okStateD (openEscrow (initialState 1) 5 2 100 100 10 3 true) (initialState 1)

/-- `stA` after the relayer released invoice 5 at time 150 (past due). -/
def stR : ContractState := okStateR (releaseToFreelancer stA 5 150) stA

/-- A freshly deployed contract that owner 1 paused. -/
def stP : ContractState := { initialState 1 with paused := true }

/-- `stA` after owner 1 paused the contract. -/
def stAP : ContractState := { stA with paused := true }

/-- Client 3 opened invoice 6 for freelancer 2, amount 100, due far in the
future (time 1000000000), at time 10. -/
def stB : ContractState :=
  okStateD (openEscrow (initialState 1) 6 2 100 1000000000 10 3 true)
    (initialState 1)

/-- `stB` after freelancer 2 marked invoice 6 delivered at time 50. -/
def stBD : ContractState := okStateD (markDelivered stB 6 50 2) stB

example : (stA.escrows 5).status = Status.Funded := by decide
example : releaseToFreelancer stA 5 150 =
    Except.ok (stR, 2, 100) := by rfl
example : (stR.escrows 5).status = Status.Released := by decide
example : setPaused (initialState 1) 1 true = Except.ok stP := by rfl
example : setPaused stA 1 true = Except.ok stAP := by rfl

/-! ## Claims -/

/-- C1: when `releaseToFreelancer` succeeds on an eligible Funded/Delivered
record, the state committed strictly before the outward transfer already has
`status = Released` and a zeroed stored amount, the payout equals the
previously stored amount, and any re-entrant `releaseToFreelancer` on the same
id during the transfer (i.e. from that committed state, at any time) is
rejected with `AlreadySettled`, so the escrowed amount is paid out at most
once per record. -/
theorem release_commits_before_transfer (s s' : ContractState)
    (id : InvoiceId) (now now2 : Nat) (f : Address) (amt : Nat)
    (h : releaseToFreelancer s id now = Except.ok (s', f, amt)) :
    ((s.escrows id).status = Status.Funded ∨
      (s.escrows id).status = Status.Delivered) ∧
    (s'.escrows id).status = Status.Released ∧
    (s'.escrows id).amount = 0 ∧
    f = (s.escrows id).freelancer ∧ amt = (s.escrows id).amount ∧
    releaseToFreelancer s' id now2 = Except.error Err.ALREADY_SETTLED := by
  rw [releaseToFreelancer_ok_iff] at h
  obtain ⟨hp, hst, hel, rfl, rfl, rfl⟩ := h
  refine ⟨hst, by simp [mapWrite], by simp [mapWrite], rfl, rfl, ?_⟩
  unfold releaseToFreelancer
  simp [hp, mapWrite]

/-- Witness for C1 at a concrete run: invoice 5 of `stA`, released at time
150, re-entered at time 150. -/
theorem release_commits_before_transfer_witness :
    ((stA.escrows 5).status = Status.Funded ∨
      (stA.escrows 5).status = Status.Delivered) ∧
    (stR.escrows 5).status = Status.Released ∧
    (stR.escrows 5).amount = 0 ∧
    (2 : Address) = (stA.escrows 5).freelancer ∧
    (100 : Nat) = (stA.escrows 5).amount ∧
    releaseToFreelancer stR 5 150 = Except.error Err.ALREADY_SETTLED :=
  release_commits_before_transfer stA stR 5 150 150 2 100 (by rfl)

/-- The spec's eligibility formula (§4.2), written from the spec's words for
comparison with the code's `isReleaseEligible`:
`(now >= dueAt) OR (deliveredAt != 0 AND now >= deliveredAt + disputeWindow)`,
with exact (unbounded) arithmetic. -/
def specIsEligible (disputeWindow : Nat) (e : Escrow) (now : Nat) : Bool :=
  decide (e.dueAt ≤ now) ||
    (decide (e.deliveredAt ≠ 0) && decide (e.deliveredAt + disputeWindow ≤ now))

/-- A delivered record near the top of the uint64 range: due at `2^64 - 1`,
delivered at `2^64 - 2`. -/
def eOv : Escrow :=
  { client := 1, freelancer := 2, amount := 5, dueAt := 2 ^ 64 - 1,
    deliveredAt := 2 ^ 64 - 2, status := Status.Delivered }

/-- C2 counterexample: with `disputeWindow = 2^64 - 1`, at time `2^64 - 2`,
the spec's disjunction for `eOv` is `false` (so the claim predicts the
decision `false`), but the code's checked uint64 addition overflows and the
call aborts instead of deciding — the decision does not equal the disjunction
at this input. -/
theorem eligibility_overflow_counterexample :
    isReleaseEligible (2 ^ 64 - 1) eOv (2 ^ 64 - 2) = none ∧
    specIsEligible (2 ^ 64 - 1) eOv (2 ^ 64 - 2) = false ∧
    isReleaseEligible (2 ^ 64 - 1) eOv (2 ^ 64 - 2) ≠
      some (specIsEligible (2 ^ 64 - 1) eOv (2 ^ 64 - 2)) := by
  refine ⟨by decide, by decide, by decide⟩

/-- C2 as amended: whenever the checked addition cannot overflow (the record
is undelivered, or `deliveredAt + disputeWindow` fits in uint64), the code's
eligibility decision equals the spec's disjunction; and for a delivered,
non-overflowing record whose `dueAt` lies beyond the end of the dispute
window, `releaseToFreelancer` fails with `NotEligible` at every time strictly
before `deliveredAt + disputeWindow` and succeeds at exactly
`deliveredAt + disputeWindow`. -/
theorem eligibility_matches_spec (s : ContractState) (id : InvoiceId)
    (hp : s.paused = false)
    (hst : (s.escrows id).status = Status.Delivered)
    (hd : (s.escrows id).deliveredAt ≠ 0)
    (hnof : (s.escrows id).deliveredAt + s.disputeWindow < 2 ^ 64)
    (hfut : (s.escrows id).deliveredAt + s.disputeWindow <
      (s.escrows id).dueAt) :
    (∀ (e : Escrow) (dw n : Nat), e.deliveredAt = 0 ∨ e.deliveredAt + dw < 2 ^ 64 →
      isReleaseEligible dw e n = some (specIsEligible dw e n)) ∧
    (∀ n, n < (s.escrows id).deliveredAt + s.disputeWindow →
      releaseToFreelancer s id n = Except.error Err.NOT_ELIGIBLE) ∧
    releaseToFreelancer s id
        ((s.escrows id).deliveredAt + s.disputeWindow) =
      Except.ok
        ({ s with
            escrows := mapWrite s.escrows id
              ({ s.escrows id with status := Status.Released, amount := 0 }) },
          (s.escrows id).freelancer, (s.escrows id).amount) := by
  refine ⟨?_, ?_, ?_⟩
  · intro e dw n hok
    unfold isReleaseEligible specIsEligible
    rcases hok with h0 | hlt
    · simp [h0]
      split_ifs <;> simp_all
    · split_ifs <;> simp_all
  · intro n hn
    unfold releaseToFreelancer
    have hne : isReleaseEligible s.disputeWindow (s.escrows id) n =
        some false := by
      unfold isReleaseEligible
      rw [if_neg (by omega), if_pos hd, if_pos hnof]
      simp
      omega
    simp [hp, hst, hne]
  · have hyes : isReleaseEligible s.disputeWindow (s.escrows id)
        ((s.escrows id).deliveredAt + s.disputeWindow) = some true := by
      unfold isReleaseEligible
      rw [if_neg (by omega), if_pos hd, if_pos hnof]
      simp
    unfold releaseToFreelancer
    simp [hp, hst, hyes]

/-- Witness for C2's amended statement: invoice 6 of `stBD`, delivered at
time 50, default `disputeWindow = 432000`, due at 1000000000; release fails
at 432049 and succeeds at 432050 = deliveredAt + disputeWindow. -/
theorem eligibility_matches_spec_witness :
    isReleaseEligible 432000 (stBD.escrows 6) 999 =
      some (specIsEligible 432000 (stBD.escrows 6) 999) ∧
    releaseToFreelancer stBD 6 432049 = Except.error Err.NOT_ELIGIBLE ∧
    releaseToFreelancer stBD 6
        ((stBD.escrows 6).deliveredAt + stBD.disputeWindow) =
      Except.ok
        ({ stBD with
            escrows := mapWrite stBD.escrows 6
              ({ stBD.escrows 6 with
                  status := Status.Released, amount := 0 }) },
          (stBD.escrows 6).freelancer, (stBD.escrows 6).amount) :=
  ⟨(eligibility_matches_spec stBD 6 (by decide) (by decide) (by decide)
      (by decide) (by decide)).1 (stBD.escrows 6) 432000 999
      (Or.inr (by decide)),
   (eligibility_matches_spec stBD 6 (by decide) (by decide) (by decide)
      (by decide) (by decide)).2.1 432049 (by decide),
   (eligibility_matches_spec stBD 6 (by decide) (by decide) (by decide)
      (by decide) (by decide)).2.2⟩

/-- The state `openEscrow` commits when all checks and the inward transfer
succeed (the success branch of `openEscrow`), named so the atomicity theorem
can speak about it. -/
def openCommit (s : ContractState) (id : InvoiceId) (f : Address)
    (amt due : Nat) (caller : Address) : ContractState :=
  { s with
    escrows := mapWrite s.escrows id
      { client := caller, freelancer := f, amount := amt, dueAt := due,
        deliveredAt := 0, status := Status.Funded },
    escrowExists := mapWrite s.escrowExists id true,
    userEscrows := pushUser (pushUser s.userEscrows caller id) f id }

/-- C3: `openEscrow` is all-or-nothing.  With all preconditions met, if the
inward transfer fails the whole call fails with the transfer error — an
`Except.error` models a revert, which discards every storage write, so no
record, no existence flag and no index entry survives.  If the transfer
succeeds, the call commits, in one state (`openCommit`), the record
(client = caller, status = Funded), the existence flag, and one new index
entry for the client and one for the freelancer, touching nothing else. -/
theorem openEscrow_atomic (s : ContractState) (id : InvoiceId) (f : Address)
    (amt due now : Nat) (caller : Address)
    (hp : s.paused = false) (hid : id ≠ 0)
    (hnew : (s.escrows id).status = Status.None) (hf : f ≠ 0)
    (hamt : amt ≠ 0) (hdue : now < due) (hcf : caller ≠ f) :
    openEscrow s id f amt due now caller false =
      Except.error Err.TRANSFER_FAILED ∧
    openEscrow s id f amt due now caller true =
      Except.ok (openCommit s id f amt due caller) ∧
    (openCommit s id f amt due caller).escrows id =
      { client := caller, freelancer := f, amount := amt, dueAt := due,
        deliveredAt := 0, status := Status.Funded } ∧
    (openCommit s id f amt due caller).escrowExists id = true ∧
    (openCommit s id f amt due caller).userEscrows caller =
      s.userEscrows caller ++ [id] ∧
    (openCommit s id f amt due caller).userEscrows f =
      s.userEscrows f ++ [id] ∧
    (∀ a, a ≠ caller → a ≠ f →
      (openCommit s id f amt due caller).userEscrows a = s.userEscrows a) ∧
    (∀ j, j ≠ id →
      (openCommit s id f amt due caller).escrows j = s.escrows j ∧
      (openCommit s id f amt due caller).escrowExists j = s.escrowExists j) ∧
    (openCommit s id f amt due caller).paused = s.paused ∧
    (openCommit s id f amt due caller).owner = s.owner ∧
    (openCommit s id f amt due caller).disputeWindow = s.disputeWindow := by
  refine ⟨?_, ?_, ?_, ?_, ?_, ?_, ?_, ?_, rfl, rfl, rfl⟩
  · unfold openEscrow
    rw [if_neg (by simp [hp]), if_neg hid, if_neg (by simp [hnew]),
      if_neg hf, if_neg hamt, if_neg (by omega), if_pos rfl]
  · unfold openEscrow openCommit
    rw [if_neg (by simp [hp]), if_neg hid, if_neg (by simp [hnew]),
      if_neg hf, if_neg hamt, if_neg (by omega), if_neg (by simp)]
  · simp [openCommit, mapWrite]
  · simp [openCommit, mapWrite]
  · simp [openCommit, pushUser, hcf]
  · have hfc : f ≠ caller := fun h => hcf h.symm
    simp [openCommit, pushUser, hfc]
  · intro a ha hf2
    simp [openCommit, pushUser, ha, hf2]
  · intro j hj
    simp [openCommit, mapWrite, hj]

/-- Witness for C3: client 3 opens invoice 5 for freelancer 2 on a fresh
contract, with a failing and with a succeeding transfer; bystander address 4
and bystander invoice 7 are untouched. -/
theorem openEscrow_atomic_witness :
    openEscrow (initialState 1) 5 2 100 100 10 3 false =
      Except.error Err.TRANSFER_FAILED ∧
    openEscrow (initialState 1) 5 2 100 100 10 3 true =
      Except.ok (openCommit (initialState 1) 5 2 100 100 3) ∧
    (openCommit (initialState 1) 5 2 100 100 3).escrows 5 =
      { client := 3, freelancer := 2, amount := 100, dueAt := 100,
        deliveredAt := 0, status := Status.Funded } ∧
    (openCommit (initialState 1) 5 2 100 100 3).escrowExists 5 = true ∧
    (openCommit (initialState 1) 5 2 100 100 3).userEscrows 3 =
      (initialState 1).userEscrows 3 ++ [5] ∧
    (openCommit (initialState 1) 5 2 100 100 3).userEscrows 2 =
      (initialState 1).userEscrows 2 ++ [5] ∧
    (openCommit (initialState 1) 5 2 100 100 3).userEscrows 4 =
      (initialState 1).userEscrows 4 ∧
    (openCommit (initialState 1) 5 2 100 100 3).escrows 7 =
      (initialState 1).escrows 7 ∧
    (openCommit (initialState 1) 5 2 100 100 3).escrowExists 7 =
      (initialState 1).escrowExists 7 ∧
    (openCommit (initialState 1) 5 2 100 100 3).paused =
      (initialState 1).paused ∧
    (openCommit (initialState 1) 5 2 100 100 3).owner =
      (initialState 1).owner ∧
    (openCommit (initialState 1) 5 2 100 100 3).disputeWindow =
      (initialState 1).disputeWindow := by
  obtain ⟨h1, h2, h3, h4, h5, h6, h7, h8, h9, h10, h11⟩ :=
    openEscrow_atomic (initialState 1) 5 2 100 100 10 3 (by decide)
      (by decide) (by decide) (by decide) (by decide) (by decide) (by decide)
  exact ⟨h1, h2, h3, h4, h5, h6, h7 4 (by decide) (by decide),
    (h8 7 (by decide)).1, (h8 7 (by decide)).2, h9, h10, h11⟩

/-- C4 counterexample: `stP` is reachable (deploy, then owner 1 pauses) and
paused, yet the mutating admin setter `setPaused` called by the owner does not
fail with `Paused` — it succeeds and unpauses; `setDisputeWindow` likewise
succeeds while paused.  So not every mutating operation checks the pause flag.
-/
theorem setters_not_pause_gated_counterexample :
    Reachable stP ∧ stP.paused = true ∧
    setPaused stP 1 false = Except.ok (initialState 1) ∧
    setPaused stP 1 false ≠ Except.error Err.PAUSED ∧
    setDisputeWindow stP 1 86400 =
      Except.ok { stP with disputeWindow := 86400 } ∧
    setDisputeWindow stP 1 86400 ≠ Except.error Err.PAUSED := by
  refine ⟨?_, rfl, rfl, fun h => Except.noConfusion h, rfl,
    fun h => Except.noConfusion h⟩
  exact Reachable.step (initialState 1) stP (Reachable.init 1)
    (Step.pauseSet (initialState 1) stP 1 true rfl)

/-- C4 as amended: the three party-facing mutating operations (`openEscrow`,
`markDelivered`, `releaseToFreelancer`) check the pause flag first and, while
paused, fail closed with `Paused` before any other check or state change; the
two admin setters are gated only by ownership, not by the pause flag —
`setPaused` and `setDisputeWindow` behave identically whether or not the
system is paused. -/
theorem pause_gate (s : ContractState) (id idD idR : InvoiceId) (f : Address)
    (amt due now nowD nowR : Nat) (caller callerD callerP : Address)
    (ok p : Bool) (w : Nat) (hp : s.paused = true) :
    openEscrow s id f amt due now caller ok = Except.error Err.PAUSED ∧
    markDelivered s idD nowD callerD = Except.error Err.PAUSED ∧
    releaseToFreelancer s idR nowR = Except.error Err.PAUSED ∧
    setPaused s callerP p = setPaused { s with paused := false } callerP p ∧
    (setDisputeWindow s callerP w).map (fun t => t.disputeWindow) =
      (setDisputeWindow { s with paused := false } callerP w).map
        (fun t => t.disputeWindow) := by
  refine ⟨?_, ?_, ?_, ?_, ?_⟩
  · unfold openEscrow
    rw [if_pos (by simp [hp])]
  · unfold markDelivered
    rw [if_pos (by simp [hp])]
  · unfold releaseToFreelancer
    rw [if_pos (by simp [hp])]
  · unfold setPaused
    split_ifs <;> simp_all
  · unfold setDisputeWindow
    split_ifs <;> simp_all [Except.map]

/-- Witness for C4's amended statement on the reachable paused state `stAP`
(which holds a Funded record under invoice 5). -/
theorem pause_gate_witness :
    openEscrow stAP 7 2 100 100 10 3 true = Except.error Err.PAUSED ∧
    markDelivered stAP 5 50 2 = Except.error Err.PAUSED ∧
    releaseToFreelancer stAP 5 150 = Except.error Err.PAUSED ∧
    setPaused stAP 1 false = setPaused { stAP with paused := false } 1 false ∧
    (setDisputeWindow stAP 1 86400).map (fun t => t.disputeWindow) =
      (setDisputeWindow { stAP with paused := false } 1 86400).map
        (fun t => t.disputeWindow) :=
  pause_gate stAP 7 5 5 2 100 100 10 50 150 3 2 1 true false 86400 (by decide)

/-- C5: from any reachable state, one successful public operation moves each
record's status only along None→Funded, Funded→Delivered, Funded→Released or
Delivered→Released (or leaves it unchanged) — never backward — and never
produces the reserved `Disputed` or `Refunded` values. -/
theorem status_monotone (s s' : ContractState) (hr : Reachable s)
    (hs : Step s s') (id : InvoiceId) :
    allowedAdvance (s.escrows id).status (s'.escrows id).status ∧
    (s'.escrows id).status ≠ Status.Disputed ∧
    (s'.escrows id).status ≠ Status.Refunded :=
  ⟨step_status_advance hs id,
   (reachable_not_reserved (Reachable.step s s' hr hs) id).1,
   (reachable_not_reserved (Reachable.step s s' hr hs) id).2⟩

/-- Witness for C5: the opening step that creates invoice 5 (None→Funded). -/
theorem status_monotone_witness :
    allowedAdvance ((initialState 1).escrows 5).status
      (stA.escrows 5).status ∧
    (stA.escrows 5).status ≠ Status.Disputed ∧
    (stA.escrows 5).status ≠ Status.Refunded :=
  status_monotone (initialState 1) stA (Reachable.init 1)
    (Step.openE (initialState 1) stA 5 2 100 100 10 3 true rfl) 5

/-- C6 counterexample: on the reachable paused state `stP`, a zero id yields
`Paused`, not `IdentifierRequired` — the pause check runs first (it is a
function modifier), not last as the claim orders the checks. -/
theorem openEscrow_order_counterexample :
    Reachable stP ∧ stP.paused = true ∧
    openEscrow stP 0 2 100 100 10 3 true = Except.error Err.PAUSED ∧
    openEscrow stP 0 2 100 100 10 3 true ≠ Except.error Err.BAD_ID := by
  refine ⟨?_, rfl, rfl, fun h => Err.noConfusion (Except.error.inj h)⟩
  exact Reachable.step (initialState 1) stP (Reachable.init 1)
    (Step.pauseSet (initialState 1) stP 1 true rfl)

/-- C6 as amended: `openEscrow` checks its preconditions before any mutation
in this order: not paused (else `Paused`), id non-zero (else
`IdentifierRequired`), no existing record (else `AlreadyExists`), freelancer
non-null (else `InvalidCounterparty`), amount positive (else `InvalidAmount`),
due date in the future (else `InvalidDueDate`); when several are violated at
once the earliest in that order wins — e.g. a zero id submitted while paused
yields `Paused`. -/
theorem openEscrow_check_order (s : ContractState) (id : InvoiceId)
    (f : Address) (amt due now : Nat) (caller : Address) (ok : Bool) :
    (s.paused = true →
      openEscrow s id f amt due now caller ok = Except.error Err.PAUSED) ∧
    (s.paused = false → id = 0 →
      openEscrow s id f amt due now caller ok = Except.error Err.BAD_ID) ∧
    (s.paused = false → id ≠ 0 → (s.escrows id).status ≠ Status.None →
      openEscrow s id f amt due now caller ok = Except.error Err.EXISTS) ∧
    (s.paused = false → id ≠ 0 → (s.escrows id).status = Status.None →
      f = 0 →
      openEscrow s id f amt due now caller ok =
        Except.error Err.BAD_FREELANCER) ∧
    (s.paused = false → id ≠ 0 → (s.escrows id).status = Status.None →
      f ≠ 0 → amt = 0 →
      openEscrow s id f amt due now caller ok = Except.error Err.BAD_AMT) ∧
    (s.paused = false → id ≠ 0 → (s.escrows id).status = Status.None →
      f ≠ 0 → amt ≠ 0 → due ≤ now →
      openEscrow s id f amt due now caller ok = Except.error Err.BAD_DUE) := by
  refine ⟨?_, ?_, ?_, ?_, ?_, ?_⟩
  · intro hp
    unfold openEscrow
    rw [if_pos (by simp [hp])]
  · intro hp hid
    unfold openEscrow
    rw [if_neg (by simp [hp]), if_pos hid]
  · intro hp hid hex
    unfold openEscrow
    rw [if_neg (by simp [hp]), if_neg hid, if_pos hex]
  · intro hp hid hnone hf
    unfold openEscrow
    rw [if_neg (by simp [hp]), if_neg hid, if_neg (by simp [hnone]),
      if_pos hf]
  · intro hp hid hnone hf hamt
    unfold openEscrow
    rw [if_neg (by simp [hp]), if_neg hid, if_neg (by simp [hnone]),
      if_neg hf, if_pos hamt]
  · intro hp hid hnone hf hamt hdue
    unfold openEscrow
    rw [if_neg (by simp [hp]), if_neg hid, if_neg (by simp [hnone]),
      if_neg hf, if_neg hamt, if_pos hdue]

/-- Witness for C6's amended statement: one concrete call per error, each with
every later precondition also violated where possible. -/
theorem openEscrow_check_order_witness :
    openEscrow stP 0 2 100 100 10 3 true = Except.error Err.PAUSED ∧
    openEscrow (initialState 1) 0 0 0 0 10 3 true =
      Except.error Err.BAD_ID ∧
    openEscrow stA 5 0 0 0 10 3 true = Except.error Err.EXISTS ∧
    openEscrow stA 7 0 0 0 10 3 true = Except.error Err.BAD_FREELANCER ∧
    openEscrow stA 7 2 0 0 10 3 true = Except.error Err.BAD_AMT ∧
    openEscrow stA 7 2 100 10 10 3 true = Except.error Err.BAD_DUE :=
  ⟨(openEscrow_check_order stP 0 2 100 100 10 3 true).1 (by decide),
   (openEscrow_check_order (initialState 1) 0 0 0 0 10 3 true).2.1
     (by decide) rfl,
   (openEscrow_check_order stA 5 0 0 0 10 3 true).2.2.1 (by decide)
     (by decide) (by decide),
   (openEscrow_check_order stA 7 0 0 0 10 3 true).2.2.2.1 (by decide)
     (by decide) (by decide) rfl,
   (openEscrow_check_order stA 7 2 0 0 10 3 true).2.2.2.2.1 (by decide)
     (by decide) (by decide) (by decide) rfl,
   (openEscrow_check_order stA 7 2 100 10 10 3 true).2.2.2.2.2 (by decide)
     (by decide) (by decide) (by decide) (by decide) (by decide)⟩

/-- C7 counterexample: invoice 5 was successfully opened (status Funded in
the reachable state `stAP`), yet a later `openEscrow` on the same id fails
with `Paused`, not `AlreadyExists`, because the system is paused at the time
of the call. -/
theorem reopen_paused_counterexample :
    Reachable stAP ∧ (stAP.escrows 5).status = Status.Funded ∧
    openEscrow stAP 5 2 100 200 150 3 true = Except.error Err.PAUSED ∧
    openEscrow stAP 5 2 100 200 150 3 true ≠ Except.error Err.EXISTS := by
  refine ⟨?_, by decide, rfl, fun h => Err.noConfusion (Except.error.inj h)⟩
  exact Reachable.step stA stAP
    (Reachable.step (initialState 1) stA (Reachable.init 1)
      (Step.openE (initialState 1) stA 5 2 100 100 10 3 true rfl))
    (Step.pauseSet stA stAP 1 true rfl)

/-- C7 as amended: once `openEscrow` has succeeded for an id, every later
`openEscrow` call with that id fails, whatever the record's current status —
with `AlreadyExists` whenever the system is not paused at the time of the
call, and with `Paused` otherwise. -/
theorem reopen_always_fails (s0 s1 s : ContractState) (id : InvoiceId)
    (f0 : Address) (amt0 due0 now0 : Nat) (c0 : Address) (ok0 : Bool)
    (f : Address) (amt due now : Nat) (caller : Address) (ok : Bool)
    (hopen : openEscrow s0 id f0 amt0 due0 now0 c0 ok0 = Except.ok s1)
    (hsteps : Steps s1 s) :
    (s.paused = false →
      openEscrow s id f amt due now caller ok = Except.error Err.EXISTS) ∧
    (s.paused = true →
      openEscrow s id f amt due now caller ok = Except.error Err.PAUSED) := by
  rw [openEscrow_ok_iff] at hopen
  obtain ⟨-, hid, -, -, -, -, -, rfl⟩ := hopen
  have hused : (s.escrows id).status ≠ Status.None := by
    refine steps_status_stays_used hsteps id ?_
    simp [mapWrite]
  constructor
  · intro hp
    unfold openEscrow
    rw [if_neg (by simp [hp]), if_neg hid, if_pos hused]
  · intro hp
    unfold openEscrow
    rw [if_pos (by simp [hp])]

/-- Witness for C7's amended statement: re-opening invoice 5 of `stA`
(unpaused) directly after the opening call, and of `stAP` after the owner
paused. -/
theorem reopen_always_fails_witness :
    openEscrow stA 5 9 77 300 20 4 true = Except.error Err.EXISTS ∧
    openEscrow stAP 5 9 77 300 20 4 true = Except.error Err.PAUSED :=
  ⟨(reopen_always_fails (initialState 1) stA stA 5 2 100 100 10 3 true 9 77
      300 20 4 true rfl (Steps.refl stA)).1 rfl,
   (reopen_always_fails (initialState 1) stA stAP 5 2 100 100 10 3 true 9 77
      300 20 4 true rfl
      (Steps.tail stA stA stAP (Steps.refl stA)
        (Step.pauseSet stA stAP 1 true rfl))).2 rfl⟩

/-- C8: `getEscrowsDetails` fails entirely with `InvalidInvoice` whenever at
least one queried id has no record, and otherwise returns six field
sequences, each index-matched to the input order (hence of the input's
length). -/
theorem getEscrowsDetails_spec (s : ContractState) (ids : List InvoiceId) :
    ((∃ i ∈ ids, s.escrowExists i = false) →
      getEscrowsDetails s ids = Except.error Err.INVALID_INVOICE) ∧
    ((∀ i ∈ ids, s.escrowExists i = true) →
      getEscrowsDetails s ids = Except.ok
        (ids.map (fun i => (s.escrows i).client),
         ids.map (fun i => (s.escrows i).freelancer),
         ids.map (fun i => (s.escrows i).amount),
         ids.map (fun i => (s.escrows i).dueAt),
         ids.map (fun i => (s.escrows i).deliveredAt),
         ids.map (fun i => (s.escrows i).status))) := by
  induction ids with
  | nil =>
    refine ⟨?_, ?_⟩
    · rintro ⟨i, hi, -⟩
      exact absurd hi (List.not_mem_nil i)
    · intro
      rfl
  | cons id rest ih =>
    refine ⟨?_, ?_⟩
    · rintro ⟨i, hi, hmiss⟩
      rcases List.mem_cons.mp hi with rfl | hrest
      · unfold getEscrowsDetails
        rw [hmiss]
        simp
      · unfold getEscrowsDetails
        by_cases hid : s.escrowExists id
        · rw [if_pos hid, ih.1 ⟨i, hrest, hmiss⟩]
        · rw [if_neg hid]
    · intro hall
      unfold getEscrowsDetails
      rw [if_pos (hall id (List.mem_cons_self id rest)),
        ih.2 (fun i hi => hall i (List.mem_cons_of_mem id hi))]
      simp

/-- Witness for C8: querying the one-record state `stA` with an unknown id 9
in the list fails entirely; querying `[5, 5]` succeeds with aligned columns.
-/
theorem getEscrowsDetails_spec_witness :
    getEscrowsDetails stA [5, 9] = Except.error Err.INVALID_INVOICE ∧
    getEscrowsDetails stA [5, 5] = Except.ok
      ([5, 5].map (fun i => (stA.escrows i).client),
       [5, 5].map (fun i => (stA.escrows i).freelancer),
       [5, 5].map (fun i => (stA.escrows i).amount),
       [5, 5].map (fun i => (stA.escrows i).dueAt),
       [5, 5].map (fun i => (stA.escrows i).deliveredAt),
       [5, 5].map (fun i => (stA.escrows i).status)) :=
  ⟨(getEscrowsDetails_spec stA [5, 9]).1 ⟨9, by decide, by decide⟩,
   (getEscrowsDetails_spec stA [5, 5]).2 (by decide)⟩

/-- C9: the two read operations are not gated by the pause flag — their
results are identical with the flag set or cleared, and the only error
`getEscrowsDetails` can return is `InvalidInvoice` (never `Paused`);
`getEscrowsByAddress` is total. -/
theorem reads_ignore_pause (s : ContractState) (b : Bool) (u : Address)
    (ids : List InvoiceId) :
    getEscrowsByAddress { s with paused := b } u = getEscrowsByAddress s u ∧
    getEscrowsDetails { s with paused := b } ids = getEscrowsDetails s ids ∧
    (∀ e, getEscrowsDetails s ids = Except.error e →
      e = Err.INVALID_INVOICE) := by
  refine ⟨rfl, ?_, ?_⟩
  · induction ids with
    | nil => rfl
    | cons id rest ih =>
      unfold getEscrowsDetails
      rw [ih]
  · induction ids with
    | nil =>
      intro e h
      exact absurd h (by simp [getEscrowsDetails])
    | cons id rest ih =>
      intro e h
      unfold getEscrowsDetails at h
      by_cases hid : s.escrowExists id
      · rw [if_pos hid] at h
        rcases hrec : getEscrowsDetails s rest with e2 | v
        · rw [hrec] at h
          injection h with h2
          exact h2 ▸ ih e2 hrec
        · rw [hrec] at h
          obtain ⟨c, f2, a2, d2, v2, st2⟩ := v
          exact absurd h (by simp)
      · rw [if_neg hid] at h
        exact (Except.error.inj h).symm

/-- Witness for C9: reads on `stA` give identical results paused or not, and
the failing batch read over `[5, 9]` (9 unknown) fails with `InvalidInvoice`.
-/
theorem reads_ignore_pause_witness :
    getEscrowsByAddress { stA with paused := true } 3 =
      getEscrowsByAddress stA 3 ∧
    getEscrowsDetails { stA with paused := true } [5, 9] =
      getEscrowsDetails stA [5, 9] ∧
    Err.INVALID_INVOICE = Err.INVALID_INVOICE :=
  ⟨(reads_ignore_pause stA true 3 [5, 9]).1,
   (reads_ignore_pause stA true 3 [5, 9]).2.1,
   (reads_ignore_pause stA true 3 [5, 9]).2.2 Err.INVALID_INVOICE rfl⟩

/-- A contract state holding the near-overflow delivered record `eOv` under
every id, with the largest `disputeWindow` the owner can set
(`2^64 - 1 ≥ 1 day`). -/
def stOv : ContractState :=
  { owner := 1, paused := false, disputeWindow := 2 ^ 64 - 1,
    userEscrows := fun _ => [], escrowExists := fun _ => false,
    escrows := fun _ => eOv }

/-- C10: in the eligibility check the sum `deliveredAt + disputeWindow` is
checked uint64 arithmetic — for a Funded/Delivered record whose `dueAt` is
still in the future, a delivered timestamp and an owner-settable
`disputeWindow` (at least 1 day) whose sum reaches `2^64` make
`releaseToFreelancer` abort with the overflow panic rather than succeed or
fail with `NotEligible`: the delivery-based trigger can never fire early
through wraparound. -/
theorem release_overflow_aborts (s : ContractState) (id : InvoiceId)
    (now : Nat) (hp : s.paused = false)
    (hst : (s.escrows id).status = Status.Funded ∨
      (s.escrows id).status = Status.Delivered)
    (hd : (s.escrows id).deliveredAt ≠ 0)
    (hfut : now < (s.escrows id).dueAt)
    (_hw : 86400 ≤ s.disputeWindow)
    (hof : 2 ^ 64 ≤ (s.escrows id).deliveredAt + s.disputeWindow) :
    releaseToFreelancer s id now = Except.error Err.PANIC_OVERFLOW := by
  have hnone : isReleaseEligible s.disputeWindow (s.escrows id) now = none := by
    unfold isReleaseEligible
    rw [if_neg (by omega), if_pos hd, if_neg (by omega)]
  unfold releaseToFreelancer
  simp [hp, hst, hnone]

/-- Witness for C10: the near-overflow record `eOv` in `stOv`
(`deliveredAt = 2^64 - 2`, `disputeWindow = 2^64 - 1`) at time `2^64 - 2`,
before its due date `2^64 - 1`. -/
theorem release_overflow_aborts_witness :
    releaseToFreelancer stOv 7 (2 ^ 64 - 2) =
      Except.error Err.PANIC_OVERFLOW :=
  release_overflow_aborts stOv 7 (2 ^ 64 - 2) (by decide)
    (Or.inr (by decide)) (by decide) (by decide) (by decide) (by decide)
